import Mathlib

/-!
Verification of `everyclass/server/calendar/repo/calendar_token.py`.

The file embeds the two components of the module:
  * the refresh gate `use_cache` over the key-value counter store, and
  * the token store operations `insert_calendar_token`,
    `update_last_used_time`, `reset_tokens`, `find_calendar_token`
    over the relational table `calendar_tokens`.

Timestamps are natural numbers (unix seconds) for the token store and
integers for the gate (the gate stores and compares values produced by
`int(time.time())` and `map(int, ...)`, which are unbounded Python ints).
-/

/-! ## Refresh gate

The stored value for a key is the decoded pair `(timestamp, times)`; the
source keeps it in the counter store as the decimal string
`"timestamp,times"` and decodes it with `map(int, r.decode().split(","))`.
A `GateResult` records the boolean decision, the value stored under the
key after the call, and the list of `set` operations the call performed,
so that a call that writes nothing is distinguishable from a call that
writes back the unchanged value. -/

def SECONDS_IN_HOUR : Int := 60 * 60

structure GateResult where
  result : Bool
  state : Option (Int × Int)
  writes : List (Int × Int)
deriving DecidableEq

/-- Models `use_cache(filename)`. `now` is the value of `int(time.time())`
during the call (the source samples the clock again inside `set_current`;
the model treats the call as instantaneous), and `st` is the decoded value
stored under the key `"{redis_prefix}:cal_tkn:{filename}"`, `none` when the
key is absent. -/
def use_cache (now : Int) (st : Option (Int × Int)) : GateResult :=
  match st with
  | none => ⟨true, some (now, 2), [(now, 2)]⟩
  | some (ts, times) =>
    if now - ts < SECONDS_IN_HOUR then
      if times - 1 = 0 then ⟨false, some (now, 2), [(now, 2)]⟩
      else ⟨true, some (ts, times - 1), [(ts, times - 1)]⟩
    else ⟨true, some (ts, times), []⟩

/-! ## UUID strings

`insert_calendar_token` returns `str(uuid.uuid4())` and the two functions
taking a token string run it through `uuid.UUID(token)`.  The model below
follows CPython: `str` of a UUID is the 32 lowercase hex digits of its
128-bit value with hyphens after digits 8, 12, 16 and 20, and the `UUID`
constructor removes every occurrence of `"urn:"` and then of `"uuid:"`,
strips leading and trailing braces, removes every hyphen, requires exactly
32 remaining characters, converts them with `int(hex, 16)` and requires the
value to lie in range below 2 to the 128.  `int(s, 16)` itself strips
whitespace (the model covers the ASCII whitespace characters), accepts an
optional sign, an optional `0x` or `0X` tag, and single underscores between
hex digits. -/

def hexDigitChar (n : Nat) : Char :=
  if n < 10 then Char.ofNat (48 + n) else Char.ofNat (87 + n)

def toHexAux : Nat → Nat → List Char → List Char
  | 0, _, acc => acc
  | k + 1, n, acc => toHexAux k (n / 16) (hexDigitChar (n % 16) :: acc)

/-- Models the `'%032x' % self.int` padding inside `str(uuid)`. -/
def toHex32 (n : Nat) : List Char := toHexAux 32 n []

/-- Models `str(uuid.UUID(int = n))`: hex digits in groups 8-4-4-4-12. -/
def uuidToStr (n : Nat) : List Char :=
  let h := toHex32 n
  h.take 8 ++ '-' :: ((h.drop 8).take 4 ++ '-' :: ((h.drop 12).take 4 ++
    '-' :: ((h.drop 16).take 4 ++ '-' :: h.drop 20)))

def hexVal (c : Char) : Option Nat :=
  if '0' ≤ c ∧ c ≤ '9' then some (c.toNat - 48)
  else if 'a' ≤ c ∧ c ≤ 'f' then some (c.toNat - 87)
  else if 'A' ≤ c ∧ c ≤ 'F' then some (c.toNat - 55)
  else none

/-- Digit tail of a base-16 Python int literal: hex digits separated by
single underscores, no trailing underscore. `acc` holds the value read so
far; `afterSep` records that the previous character was an underscore, so
that doubled or trailing underscores are rejected. -/
def hexDigitsAux (afterSep : Bool) (acc : Nat) : List Char → Option Nat
  | [] => if afterSep then none else some acc
  | c :: rest =>
    if c = '_' then
      if afterSep then none else hexDigitsAux true acc rest
    else
      match hexVal c with
      | some v => hexDigitsAux false (16 * acc + v) rest
      | none => none

/-- Digit part of a base-16 Python int literal: must start with a digit. -/
def hexDigitsStart : List Char → Option Nat
  | [] => none
  | c :: rest =>
    match hexVal c with
    | some v => hexDigitsAux false v rest
    | none => none

/-- Unsigned part of `int(s, 16)`: optional `0x`/`0X` tag, which may be
followed by one underscore, then the digits. -/
def pyIntHexCore (l : List Char) : Option Nat :=
  match l with
  | c0 :: c1 :: rest =>
    if c0 = '0' ∧ (c1 = 'x' ∨ c1 = 'X') then
      match rest with
      | [] => none
      | c2 :: rest2 => if c2 = '_' then hexDigitsStart rest2 else hexDigitsStart rest
    else hexDigitsStart l
  | _ => hexDigitsStart l

def isPySpace (c : Char) : Bool :=
  c == ' ' || c == '\t' || c == '\n' || c == '\r' || c == '\x0b' || c == '\x0c'

/-- Sign handling of `int(s, 16)` after whitespace stripping. -/
def pyIntSigned : List Char → Option Int
  | [] => none
  | c :: rest =>
    if c = '+' then (pyIntHexCore rest).map (fun k => (k : Int))
    else if c = '-' then (pyIntHexCore rest).map (fun k => -(k : Int))
    else (pyIntHexCore (c :: rest)).map (fun k => (k : Int))

/-- Models `int(s, 16)`: strip whitespace, optional sign, unsigned core. -/
def pyIntHex (l : List Char) : Option Int :=
  pyIntSigned (((l.dropWhile isPySpace).reverse.dropWhile isPySpace).reverse)

/-- Left-to-right scan removing every occurrence of `'u' :: pat`. The fuel
argument only drives structural recursion: every step consumes at least one
character and one unit of fuel, so fuel equal to the length of the input
never runs out before the list does. -/
def stripTagAux (pat : List Char) : Nat → List Char → List Char
  | 0, l => l
  | _ + 1, [] => []
  | fuel + 1, c :: rest =>
    if c = 'u' ∧ rest.take pat.length = pat then stripTagAux pat fuel (rest.drop pat.length)
    else c :: stripTagAux pat fuel rest

/-- Models `hex.replace('urn:', '')`. -/
def stripUrn (l : List Char) : List Char := stripTagAux ['r', 'n', ':'] l.length l

/-- Models `hex.replace('uuid:', '')`. -/
def stripUuidTag (l : List Char) : List Char := stripTagAux ['u', 'i', 'd', ':'] l.length l

def isBrace (c : Char) : Bool := c == '\x7b' || c == '\x7d'

/-- Models `hex.strip('{}')` (with the braces written as hex escapes). -/
def pyStripBraces (l : List Char) : List Char :=
  ((l.dropWhile isBrace).reverse.dropWhile isBrace).reverse

/-- The cleaned `hex` variable of the `UUID` constructor: tags removed,
braces stripped, hyphens removed. -/
def uuidHexClean (l : List Char) : List Char :=
  (pyStripBraces (stripUuidTag (stripUrn l))).filter (fun c => c ≠ '-')

/-- Models `uuid.UUID(token)` applied to a string, `none` when the
constructor raises `ValueError`. -/
def pyUUIDparse (l : List Char) : Option Nat :=
  if (uuidHexClean l).length = 32 then
    match pyIntHex (uuidHexClean l) with
    | some i => if 0 ≤ i ∧ i < (2 : Int) ^ 128 then some i.toNat else none
    | none => none
  else none

/-- The sixteen lowercase hex digit characters, the alphabet of
`toHex32`. -/
def hexChars : List Char := "0123456789abcdef".toList

/-- One step of reading a hex digit string as a number, the value
computed by the digit part of `int(s, 16)`. -/
def hexF (a : Nat) (c : Char) : Nat := 16 * a + (hexVal c).getD 0

/-! ## Token store

The relational state is the list of rows of the `calendar_tokens` table in
insertion order; a `SELECT` with no `ORDER BY` is modelled as returning the
matching rows in that order, `fetchall()[0]` as the head of that list.
Tokens are stored as their 128-bit value, matching the `uuid` column type.
SQL equality against a parameter that may be `NULL` (Python `None`) is
never true, which `sqlEqOpt` encodes. Errors that PostgreSQL raises while
executing a statement (enum cast, varchar overflow, unique index) are the
`PgErr` cases; errors raised by the Python code itself before any statement
runs are the `CallErr` cases (both are `ValueError` in Python and are
distinguished here only by origin). -/

structure TokenRow where
  typ : String
  identifier : String
  semester : String
  token : Nat
  create_time : Nat
  last_used_time : Option Nat
deriving DecidableEq

inductive PgErr
  | uniqueViolation
  | invalidEnumValue
  | stringTooLong
deriving DecidableEq

inductive CallErr
  | valueError
  | uuidParseError
deriving DecidableEq

/-- Values appearing in the dictionary built by `_parse`. -/
inductive PyVal
  | s : String → PyVal
  | uuidV : Nat → PyVal
deriving DecidableEq

/-- Models `_parse(result)`: the Python dict literal built from the first
four columns of the fetched row. The fetched columns `create_time` and
`last_used_time` (positions 4 and 5) do not appear in it. -/
def pyParseRow (r : TokenRow) : List (String × PyVal) :=
  [("type", PyVal.s r.typ), ("identifier", PyVal.s r.identifier),
   ("semester", PyVal.s r.semester), ("token", PyVal.uuidV r.token)]

/-- Dictionary key lookup (`d["k"]` or `d.get("k")` on the parsed dict). -/
def dictGet (d : List (String × PyVal)) (k : String) : Option PyVal :=
  (d.find? (fun kv => kv.1 == k)).map (fun kv => kv.2)

/-- Python truthiness of an `Optional[str]` argument. -/
def truthyStr : Option String → Bool
  | none => false
  | some s => s ≠ ""

/-- Python truthiness of the token argument (kept as a character list). -/
def truthyTok : Option (List Char) → Bool
  | none => false
  | some l => l ≠ []

/-- SQL equality `column = %s` where the parameter may be `NULL`. -/
def sqlEqOpt (a : String) : Option String → Bool
  | none => false
  | some s => a = s

/-- Models `insert_calendar_token(resource_type, semester, identifier)`.
`tok` is the value drawn by `uuid.uuid4()` and `now` the insertion
timestamp `datetime.datetime.now()`; the returned string is `str(token)`.
The guards model the statement-level errors of the schema built by
`init_table`: the `people_type` enum cast, the 15-character `varchar`
columns, and the unique index on `token`. -/
def insert_calendar_token (tok : Nat) (resource_type semester identifier : String)
    (now : Nat) (db : List TokenRow) : Except PgErr (List Char × List TokenRow) :=
  if resource_type ≠ "student" ∧ resource_type ≠ "teacher" then
    Except.error PgErr.invalidEnumValue
  else if 15 < identifier.length ∨ 15 < semester.length then
    Except.error PgErr.stringTooLong
  else if db.any (fun r => r.token == tok) then
    Except.error PgErr.uniqueViolation
  else
    Except.ok (uuidToStr tok, db ++ [⟨resource_type, identifier, semester, tok, now, none⟩])

/-- Models `update_last_used_time(token)`: `uuid.UUID(token)` is evaluated
while building the parameter tuple, before the `UPDATE` runs, so a parse
failure raises with the table untouched; otherwise every row whose `token`
column equals the parsed value gets `last_used_time = now`. The pair holds
the call outcome and the table after the call. -/
def update_last_used_time (token : List Char) (now : Nat) (db : List TokenRow) :
    Except CallErr Unit × List TokenRow :=
  match pyUUIDparse token with
  | none => (Except.error CallErr.uuidParseError, db)
  | some v =>
    (Except.ok (),
     db.map (fun r =>
       if r.token = v then ⟨r.typ, r.identifier, r.semester, r.token, r.create_time, some now⟩
       else r))

/-- Models `reset_tokens(student_id, typ)`: `DELETE FROM calendar_tokens
WHERE identifier = %s AND type = %s`. -/
def reset_tokens (student_id : String) (typ : Option String) (db : List TokenRow) :
    List TokenRow :=
  db.filter (fun r => !(r.identifier == student_id && sqlEqOpt r.typ typ))

/-- Models a call `reset_tokens(student_id)` that leaves `typ` at its
default value `"student"`. -/
def reset_tokens_default (student_id : String) (db : List TokenRow) : List TokenRow :=
  reset_tokens student_id (some "student") db

/-- Models `_parse(result[0]) if result else None` applied to the rows a
query returned. -/
def firstParsed : List TokenRow → Option (List (String × PyVal))
  | [] => none
  | r :: _ => some (pyParseRow r)

/-- Models `find_calendar_token(tid, sid, semester, token)`. The first
branch is taken whenever `token` is truthy and parses it with `uuid.UUID`;
the second branch is taken when `(tid or sid) and semester` is truthy and
binds its query parameters exactly as the source does: the `type` parameter
is `"teacher" if tid else "student"` and the `identifier` parameter is
`tid` (also in the student case); otherwise the function raises
`ValueError`. -/
def find_calendar_token (tid sid semester : Option String)
    (token : Option (List Char)) (db : List TokenRow) :
    Except CallErr (Option (List (String × PyVal))) :=
  if truthyTok token then
    match pyUUIDparse (token.getD []) with
    | none => Except.error CallErr.uuidParseError
    | some v => Except.ok (firstParsed (db.filter (fun r => r.token == v)))
  else if (truthyStr tid || truthyStr sid) && truthyStr semester then
    Except.ok (firstParsed (db.filter (fun r =>
      (r.typ == (if truthyStr tid then "teacher" else "student")) &&
      sqlEqOpt r.identifier tid && sqlEqOpt r.semester semester)))
  else Except.error CallErr.valueError

deriving instance DecidableEq for Except

set_option maxRecDepth 4000

/-! ## Round trip: the string form of a generated token parses back to its value -/

theorem hexDigitChar_mem_hexChars : ∀ m < 16, hexDigitChar m ∈ hexChars := by decide

theorem toHexAux_append (k : Nat) :
    ∀ n acc, toHexAux k n acc = toHexAux k n [] ++ acc := by
  induction k with
  | zero => intro n acc; rfl
  | succ k ih =>
    intro n acc
    show toHexAux k (n / 16) (hexDigitChar (n % 16) :: acc)
        = toHexAux k (n / 16) [hexDigitChar (n % 16)] ++ acc
    rw [ih (n / 16) (hexDigitChar (n % 16) :: acc), ih (n / 16) [hexDigitChar (n % 16)]]
    simp

theorem toHex32_length (n : Nat) : (toHex32 n).length = 32 := by
  have base : ∀ k n, (toHexAux k n []).length = k := by
    intro k
    induction k with
    | zero => intro n; rfl
    | succ k ih =>
      intro n
      show (toHexAux k (n / 16) [hexDigitChar (n % 16)]).length = k + 1
      rw [toHexAux_append k (n / 16)]
      simp [ih]
  exact base 32 n

theorem toHex32_mem (n : Nat) : ∀ c ∈ toHex32 n, c ∈ hexChars := by
  have base : ∀ k n, ∀ c ∈ toHexAux k n [], c ∈ hexChars := by
    intro k
    induction k with
    | zero => intro n c hc; simp [toHexAux] at hc
    | succ k ih =>
      intro n c hc
      rw [show toHexAux (k + 1) n [] = toHexAux k (n / 16) [hexDigitChar (n % 16)] from rfl,
        toHexAux_append k (n / 16)] at hc
      rcases List.mem_append.mp hc with h | h
      · exact ih (n / 16) c h
      · simp at h
        subst h
        exact hexDigitChar_mem_hexChars (n % 16) (Nat.mod_lt n (by norm_num))
  exact base 32 n

theorem hexVal_hexDigitChar : ∀ m < 16, hexVal (hexDigitChar m) = some m := by decide

theorem foldl_toHexAux (k : Nat) :
    ∀ n a, n < 16 ^ k → (toHexAux k n []).foldl hexF a = a * 16 ^ k + n := by
  induction k with
  | zero =>
    intro n a h
    interval_cases n
    simp [toHexAux]
  | succ k ih =>
    intro n a h
    rw [show toHexAux (k + 1) n [] = toHexAux k (n / 16) [hexDigitChar (n % 16)] from rfl,
      toHexAux_append k (n / 16), List.foldl_append]
    have hdiv : n / 16 < 16 ^ k := by
      rw [Nat.div_lt_iff_lt_mul (by norm_num)]
      calc n < 16 ^ (k + 1) := h
        _ = 16 ^ k * 16 := by ring
    rw [ih (n / 16) a hdiv]
    have hval : (hexVal (hexDigitChar (n % 16))).getD 0 = n % 16 := by
      rw [hexVal_hexDigitChar (n % 16) (Nat.mod_lt n (by norm_num))]
      rfl
    show hexF (a * 16 ^ k + n / 16) (hexDigitChar (n % 16)) = a * 16 ^ (k + 1) + n
    rw [hexF, hval]
    have hmod : 16 * (n / 16) + n % 16 = n := Nat.div_add_mod n 16
    calc 16 * (a * 16 ^ k + n / 16) + n % 16
        = a * (16 ^ k * 16) + (16 * (n / 16) + n % 16) := by ring
      _ = a * 16 ^ (k + 1) + n := by rw [hmod, pow_succ]

theorem hexDigitsAux_of_hex :
    ∀ (l : List Char), (∀ c ∈ l, c ∈ hexChars) →
      ∀ acc, hexDigitsAux false acc l = some (l.foldl hexF acc) := by
  intro l
  induction l with
  | nil => intro _ acc; rfl
  | cons c rest ih =>
    intro h acc
    have hc : c ∈ hexChars := h c (by simp)
    have hne : ¬ c = '_' := by
      have hall : ∀ x ∈ hexChars, ¬ x = '_' := by decide
      exact hall c hc
    have hv : hexVal c = some ((hexVal c).getD 0) := by
      have hall : ∀ x ∈ hexChars, hexVal x = some ((hexVal x).getD 0) := by decide
      exact hall c hc
    simp only [hexDigitsAux]
    rw [if_neg hne, hv]
    show hexDigitsAux false (16 * acc + (hexVal c).getD 0) rest = _
    rw [ih (fun x hx => h x (List.mem_cons_of_mem c hx)) (16 * acc + (hexVal c).getD 0)]
    rfl

theorem hexDigitsStart_of_hex (l : List Char) (hne : l ≠ [])
    (h : ∀ c ∈ l, c ∈ hexChars) : hexDigitsStart l = some (l.foldl hexF 0) := by
  cases l with
  | nil => exact absurd rfl hne
  | cons c rest =>
    have hv : hexVal c = some ((hexVal c).getD 0) := by
      have hall : ∀ x ∈ hexChars, hexVal x = some ((hexVal x).getD 0) := by decide
      exact hall c (h c (by simp))
    simp only [hexDigitsStart]
    rw [hv]
    show hexDigitsAux false ((hexVal c).getD 0) rest = _
    rw [hexDigitsAux_of_hex rest (fun x hx => h x (List.mem_cons_of_mem c hx))]
    show _ = some (rest.foldl hexF (hexF 0 c))
    rw [show hexF 0 c = (hexVal c).getD 0 from by simp [hexF]]

theorem stripTagAux_eq_self (pat : List Char) :
    ∀ (fuel : Nat) (l : List Char), (∀ c ∈ l, ¬ c = 'u') →
      stripTagAux pat fuel l = l := by
  intro fuel
  induction fuel with
  | zero => intro l _; rfl
  | succ fuel ih =>
    intro l h
    cases l with
    | nil => rfl
    | cons c rest =>
      simp only [stripTagAux]
      rw [if_neg (fun hc => h c (by simp) hc.1)]
      rw [ih rest (fun x hx => h x (List.mem_cons_of_mem c hx))]

theorem dropWhile_eq_self_of_false (p : Char → Bool) (l : List Char)
    (h : ∀ c ∈ l, p c = false) : l.dropWhile p = l := by
  cases l with
  | nil => rfl
  | cons c rest => simp [List.dropWhile_cons, h c (by simp)]

theorem pyStripBraces_eq_self (l : List Char)
    (h : ∀ c ∈ l, isBrace c = false) : pyStripBraces l = l := by
  unfold pyStripBraces
  rw [dropWhile_eq_self_of_false _ _ h,
    dropWhile_eq_self_of_false _ _ (fun c hc => h c (List.mem_reverse.mp hc)),
    List.reverse_reverse]

theorem uuidToStr_mem (n : Nat) :
    ∀ c ∈ uuidToStr n, c ∈ hexChars ∨ c = '-' := by
  intro c hc
  simp only [uuidToStr, List.mem_append, List.mem_cons] at hc
  rcases hc with h | h | h | h | h | h | h | h | h
  · exact Or.inl (toHex32_mem n c (List.take_subset 8 _ h))
  · exact Or.inr h
  · exact Or.inl (toHex32_mem n c (List.drop_subset 8 _ (List.take_subset 4 _ h)))
  · exact Or.inr h
  · exact Or.inl (toHex32_mem n c (List.drop_subset 12 _ (List.take_subset 4 _ h)))
  · exact Or.inr h
  · exact Or.inl (toHex32_mem n c (List.drop_subset 16 _ (List.take_subset 4 _ h)))
  · exact Or.inr h
  · exact Or.inl (toHex32_mem n c (List.drop_subset 20 _ h))

theorem filter_uuidToStr (n : Nat) :
    (uuidToStr n).filter (fun c => c ≠ '-') = toHex32 n := by
  have hm := toHex32_mem n
  have hself : ∀ (s : List Char), (∀ c ∈ s, c ∈ toHex32 n) →
      s.filter (fun c => c ≠ '-') = s := by
    intro s hs
    refine List.filter_eq_self.mpr ?_
    intro c hc
    have hmem : c ∈ hexChars := hm c (hs c hc)
    have hne : ∀ x ∈ hexChars, ¬ x = '-' := by decide
    simp [hne c hmem]
  have hcons : ∀ (s : List Char),
      List.filter (fun c => c ≠ '-') ('-' :: s) = List.filter (fun c => c ≠ '-') s := by
    intro s
    simp [List.filter_cons]
  show List.filter (fun c => c ≠ '-') ((toHex32 n).take 8 ++ '-' ::
      (((toHex32 n).drop 8).take 4 ++ '-' :: (((toHex32 n).drop 12).take 4 ++
        '-' :: (((toHex32 n).drop 16).take 4 ++ '-' :: (toHex32 n).drop 20)))) = toHex32 n
  rw [List.filter_append, hcons, List.filter_append, hcons, List.filter_append, hcons,
    List.filter_append, hcons]
  rw [hself _ (fun c hc => List.take_subset 8 _ hc),
    hself _ (fun c hc => List.drop_subset 8 _ (List.take_subset 4 _ hc)),
    hself _ (fun c hc => List.drop_subset 12 _ (List.take_subset 4 _ hc)),
    hself _ (fun c hc => List.drop_subset 16 _ (List.take_subset 4 _ hc)),
    hself _ (fun c hc => List.drop_subset 20 _ hc)]
  have d20 : ((toHex32 n).drop 16).drop 4 = (toHex32 n).drop 20 := by
    rw [List.drop_drop]
  have r16 : ((toHex32 n).drop 16).take 4 ++ (toHex32 n).drop 20 = (toHex32 n).drop 16 := by
    rw [← d20, List.take_append_drop]
  have d16 : ((toHex32 n).drop 12).drop 4 = (toHex32 n).drop 16 := by
    rw [List.drop_drop]
  have r12 : ((toHex32 n).drop 12).take 4 ++ (toHex32 n).drop 16 = (toHex32 n).drop 12 := by
    rw [← d16, List.take_append_drop]
  have d12 : ((toHex32 n).drop 8).drop 4 = (toHex32 n).drop 12 := by
    rw [List.drop_drop]
  have r8 : ((toHex32 n).drop 8).take 4 ++ (toHex32 n).drop 12 = (toHex32 n).drop 8 := by
    rw [← d12, List.take_append_drop]
  rw [r16, r12, r8, List.take_append_drop]
theorem uuidToStr_length (n : Nat) : (uuidToStr n).length = 36 := by
  simp [uuidToStr, List.length_append, List.length_take, List.length_drop, toHex32_length]

theorem uuidToStr_ne_nil (n : Nat) : uuidToStr n ≠ [] := by
  intro h
  have := uuidToStr_length n
  rw [h] at this
  simp at this

theorem uuidHexClean_uuidToStr (n : Nat) : uuidHexClean (uuidToStr n) = toHex32 n := by
  have hmem := uuidToStr_mem n
  have hu : ∀ c ∈ uuidToStr n, ¬ c = 'u' := by
    intro c hc
    rcases hmem c hc with h | h
    · exact (by decide : ∀ x ∈ hexChars, ¬ x = 'u') c h
    · subst h; decide
  have h1 : stripUrn (uuidToStr n) = uuidToStr n := stripTagAux_eq_self _ _ _ hu
  have h2 : stripUuidTag (uuidToStr n) = uuidToStr n := stripTagAux_eq_self _ _ _ hu
  have h3 : pyStripBraces (uuidToStr n) = uuidToStr n := by
    apply pyStripBraces_eq_self
    intro c hc
    rcases hmem c hc with h | h
    · exact (by decide : ∀ x ∈ hexChars, isBrace x = false) c h
    · subst h; decide
  unfold uuidHexClean
  rw [h1, h2, h3]
  exact filter_uuidToStr n

theorem pyIntHexCore_toHex32 (n : Nat) (hn : n < 16 ^ 32) :
    pyIntHexCore (toHex32 n) = some n := by
  have hlen := toHex32_length n
  have hmem := toHex32_mem n
  cases hl : toHex32 n with
  | nil => rw [hl] at hlen; simp at hlen
  | cons c rest =>
    cases hr : rest with
    | nil => rw [hl, hr] at hlen; simp at hlen
    | cons c1 rest2 =>
      rw [hl, hr] at hmem
      have hc1 : c1 ∈ hexChars := hmem c1 (by simp)
      have hnotx : ¬ (c = '0' ∧ (c1 = 'x' ∨ c1 = 'X')) := by
        rintro ⟨-, hx | hx⟩
        · exact (by decide : ∀ x ∈ hexChars, ¬ x = 'x') c1 hc1 hx
        · exact (by decide : ∀ x ∈ hexChars, ¬ x = 'X') c1 hc1 hx
      simp only [pyIntHexCore]
      rw [if_neg hnotx]
      have hsf : hexDigitsStart (c :: c1 :: rest2) = some ((c :: c1 :: rest2).foldl hexF 0) := by
        apply hexDigitsStart_of_hex _ (by simp)
        intro x hx
        exact hmem x hx
      rw [hsf]
      have : (c :: c1 :: rest2).foldl hexF 0 = n := by
        rw [← hr, ← hl]
        have := foldl_toHexAux 32 n 0 hn
        rw [show toHex32 n = toHexAux 32 n [] from rfl, this]
        ring
      rw [this]

theorem pyIntHex_toHex32 (n : Nat) (hn : n < 16 ^ 32) :
    pyIntHex (toHex32 n) = some (n : Int) := by
  have hmem := toHex32_mem n
  have hsp1 : (toHex32 n).dropWhile isPySpace = toHex32 n := by
    apply dropWhile_eq_self_of_false
    intro c hc
    exact (by decide : ∀ x ∈ hexChars, isPySpace x = false) c (hmem c hc)
  have hsp2 : (toHex32 n).reverse.dropWhile isPySpace = (toHex32 n).reverse := by
    apply dropWhile_eq_self_of_false
    intro c hc
    exact (by decide : ∀ x ∈ hexChars, isPySpace x = false) c (hmem c (List.mem_reverse.mp hc))
  have hscrut : (((toHex32 n).dropWhile isPySpace).reverse.dropWhile isPySpace).reverse
      = toHex32 n := by
    rw [hsp1, hsp2, List.reverse_reverse]
  unfold pyIntHex
  rw [hscrut]
  have hlen := toHex32_length n
  cases hl : toHex32 n with
  | nil => rw [hl] at hlen; simp at hlen
  | cons c rest =>
    have hc : c ∈ hexChars := by
      rw [hl] at hmem
      exact hmem c (by simp)
    have hplus : ¬ c = '+' := (by decide : ∀ x ∈ hexChars, ¬ x = '+') c hc
    have hminus : ¬ c = '-' := (by decide : ∀ x ∈ hexChars, ¬ x = '-') c hc
    simp only [pyIntSigned]
    rw [if_neg hplus, if_neg hminus, ← hl, pyIntHexCore_toHex32 n hn]
    rfl

theorem uuid_roundtrip (n : Nat) (hn : n < 2 ^ 128) :
    pyUUIDparse (uuidToStr n) = some n := by
  have h16 : n < 16 ^ 32 := by
    have he : (16 : Nat) ^ 32 = 2 ^ 128 := by norm_num
    rw [he]
    exact hn
  simp only [pyUUIDparse, uuidHexClean_uuidToStr]
  rw [if_pos (toHex32_length n), pyIntHex_toHex32 n h16]
  have hge : (0 : Int) ≤ (n : Int) := Int.natCast_nonneg n
  have hlt : (n : Int) < (2 : Int) ^ 128 := by
    have he : ((2 ^ 128 : Nat) : Int) = (2 : Int) ^ 128 := by push_cast
    rw [← he]
    exact_mod_cast hn
  show (if 0 ≤ (n : Int) ∧ (n : Int) < (2 : Int) ^ 128 then some ((n : Int)).toNat else none)
      = some n
  rw [if_pos ⟨hge, hlt⟩]
  simp

/-! ## The claims -/

/-- C1: on a fresh key the first call returns true; a second call within the
same hour returns true; a third call within that hour returns false and
starts a new window with remaining = 2; a fourth call immediately after
returns true (and leaves remaining = 1). -/
theorem use_cache_three_strikes (t0 t1 t2 t3 : Int)
    (h1 : t1 - t0 < SECONDS_IN_HOUR) (h2 : t2 - t0 < SECONDS_IN_HOUR)
    (h3 : t3 - t2 < SECONDS_IN_HOUR) :
    (use_cache t0 none).result = true ∧
    (use_cache t1 (use_cache t0 none).state).result = true ∧
    (use_cache t2 (use_cache t1 (use_cache t0 none).state).state).result = false ∧
    (use_cache t2 (use_cache t1 (use_cache t0 none).state).state).state = some (t2, 2) ∧
    (use_cache t3 (use_cache t2 (use_cache t1 (use_cache t0 none).state).state).state).result = true ∧
    (use_cache t3 (use_cache t2 (use_cache t1 (use_cache t0 none).state).state).state).state = some (t2, 1) := by
  simp only [use_cache]
  rw [if_pos h1]
  norm_num
  rw [if_pos h2]
  norm_num
  rw [if_pos h3]
  norm_num

/-- Witness for C1 at the concrete instants 0, 1, 2, 3. -/
theorem use_cache_three_strikes_witness :
    (use_cache 0 none).result = true ∧
    (use_cache 1 (use_cache 0 none).state).result = true ∧
    (use_cache 2 (use_cache 1 (use_cache 0 none).state).state).result = false ∧
    (use_cache 2 (use_cache 1 (use_cache 0 none).state).state).state = some (2, 2) ∧
    (use_cache 3 (use_cache 2 (use_cache 1 (use_cache 0 none).state).state).state).result = true ∧
    (use_cache 3 (use_cache 2 (use_cache 1 (use_cache 0 none).state).state).state).state = some (2, 1) :=
  use_cache_three_strikes 0 1 2 3 (by decide) (by decide) (by decide)

/-- C6: when state exists for the key but the window has expired
(`now - windowStart >= 1 hour`), the call returns true, the stored entry is
unchanged, and no write is performed. -/
theorem use_cache_expired_no_write (now ts times : Int)
    (h : SECONDS_IN_HOUR ≤ now - ts) :
    (use_cache now (some (ts, times))).result = true ∧
    (use_cache now (some (ts, times))).state = some (ts, times) ∧
    (use_cache now (some (ts, times))).writes = [] := by
  simp [use_cache, if_neg (not_lt.mpr h)]

/-- Witness for C6: one hour and one second after a window started. -/
theorem use_cache_expired_no_write_witness :
    (use_cache 3601 (some (0, 2))).result = true ∧
    (use_cache 3601 (some (0, 2))).state = some (0, 2) ∧
    (use_cache 3601 (some (0, 2))).writes = [] :=
  use_cache_expired_no_write 3601 0 2 (by decide)

/-- C9: assuming the existing stored value (if any) has remaining in
range 1 to 2, every value the call writes and the resulting stored value also
have remaining in that range: the counter never goes negative and a reset
is never skipped. -/
theorem use_cache_remaining_in_range (now : Int) (st : Option (Int × Int))
    (h : ∀ ts times, st = some (ts, times) → times = 1 ∨ times = 2) :
    (∀ w ∈ (use_cache now st).writes, w.2 = 1 ∨ w.2 = 2) ∧
    (∀ ts' times', (use_cache now st).state = some (ts', times') →
      times' = 1 ∨ times' = 2) := by
  cases st with
  | none => simp [use_cache]
  | some p =>
    obtain ⟨ts, times⟩ := p
    have ht := h ts times rfl
    by_cases hw : now - ts < SECONDS_IN_HOUR
    · by_cases hz : times - 1 = 0
      · simp [use_cache, hw, hz]
      · simp [use_cache, hw, hz]
        omega
    · simp [use_cache, hw]
      omega

/-- Witness for C9 on an existing entry with remaining = 2. -/
theorem use_cache_remaining_in_range_witness :
    (∀ w ∈ (use_cache 10 (some (0, 2))).writes, w.2 = 1 ∨ w.2 = 2) ∧
    (∀ ts' times', (use_cache 10 (some (0, 2))).state = some (ts', times') →
      times' = 1 ∨ times' = 2) :=
  use_cache_remaining_in_range 10 (some (0, 2))
    (by intro ts times h; cases h; right; rfl)

deriving instance DecidableEq for Except

theorem filter_no_token_match (tok : Nat) (db : List TokenRow)
    (hfresh : ∀ r ∈ db, r.token ≠ tok) :
    db.filter (fun r => r.token == tok) = [] := by
  induction db with
  | nil => rfl
  | cons a t ih =>
    rw [List.filter_cons]
    have ha : (a.token == tok) = false := by
      simp [hfresh a (by simp)]
    rw [ha]
    simp only [Bool.false_eq_true, if_false]
    exact ih (fun r hr => hfresh r (List.mem_cons_of_mem a hr))

/-- C2: for valid inputs and a fresh 128-bit token value, issuance succeeds
and lookup by the returned token string finds a record whose type,
identifier and semester match the inputs; the stored row has an absent
`last_used_time` and the parsed dict has no `last_used_time` key at all. -/
theorem issue_then_lookup_matches (kind semester identifier : String) (tok now : Nat)
    (db : List TokenRow)
    (hkind : kind = "student" ∨ kind = "teacher")
    (hid : identifier.length ≤ 15) (hsem : semester.length ≤ 15)
    (htok : tok < 2 ^ 128)
    (hfresh : ∀ r ∈ db, r.token ≠ tok) :
    insert_calendar_token tok kind semester identifier now db
      = Except.ok (uuidToStr tok, db ++ [⟨kind, identifier, semester, tok, now, none⟩]) ∧
    find_calendar_token none none none (some (uuidToStr tok))
        (db ++ [⟨kind, identifier, semester, tok, now, none⟩])
      = Except.ok (some (pyParseRow ⟨kind, identifier, semester, tok, now, none⟩)) ∧
    dictGet (pyParseRow ⟨kind, identifier, semester, tok, now, none⟩) "type"
      = some (PyVal.s kind) ∧
    dictGet (pyParseRow ⟨kind, identifier, semester, tok, now, none⟩) "identifier"
      = some (PyVal.s identifier) ∧
    dictGet (pyParseRow ⟨kind, identifier, semester, tok, now, none⟩) "semester"
      = some (PyVal.s semester) ∧
    dictGet (pyParseRow ⟨kind, identifier, semester, tok, now, none⟩) "last_used_time"
      = none ∧
    (∀ r ∈ db ++ [(⟨kind, identifier, semester, tok, now, none⟩ : TokenRow)],
      r.token = tok → r.last_used_time = none) := by
  refine ⟨?_, ?_, rfl, rfl, rfl, rfl, ?_⟩
  · unfold insert_calendar_token
    rw [if_neg (by rcases hkind with h | h <;> simp [h]),
      if_neg (by push_neg; omega)]
    rw [if_neg ?_]
    simp only [List.any_eq_true, beq_iff_eq]
    push_neg
    exact hfresh
  · have ht : truthyTok (some (uuidToStr tok)) = true := by
      simp [truthyTok, uuidToStr_ne_nil tok]
    unfold find_calendar_token
    rw [ht, if_pos rfl, show (some (uuidToStr tok)).getD [] = uuidToStr tok from rfl,
      uuid_roundtrip tok htok]
    show Except.ok (firstParsed (List.filter (fun r => r.token == tok)
        (db ++ [⟨kind, identifier, semester, tok, now, none⟩]))) = _
    rw [List.filter_append, filter_no_token_match tok db hfresh, List.nil_append,
      List.filter_cons]
    simp only [beq_self_eq_true, if_true]
    rfl
  · intro r hr htok'
    rcases List.mem_append.mp hr with h | h
    · exact absurd htok' (hfresh r h)
    · simp at h
      subst h
      rfl

/-- Witness for C2: issuing token 7 for (student, 2023-Fall, 2020001) into
an empty table. -/
theorem issue_then_lookup_matches_witness :
    insert_calendar_token 7 "student" "2023-Fall" "2020001" 0 []
      = Except.ok (uuidToStr 7, [] ++ [⟨"student", "2020001", "2023-Fall", 7, 0, none⟩]) ∧
    find_calendar_token none none none (some (uuidToStr 7))
        ([] ++ [⟨"student", "2020001", "2023-Fall", 7, 0, none⟩])
      = Except.ok (some (pyParseRow ⟨"student", "2020001", "2023-Fall", 7, 0, none⟩)) ∧
    dictGet (pyParseRow ⟨"student", "2020001", "2023-Fall", 7, 0, none⟩) "type"
      = some (PyVal.s "student") ∧
    dictGet (pyParseRow ⟨"student", "2020001", "2023-Fall", 7, 0, none⟩) "identifier"
      = some (PyVal.s "2020001") ∧
    dictGet (pyParseRow ⟨"student", "2020001", "2023-Fall", 7, 0, none⟩) "semester"
      = some (PyVal.s "2023-Fall") ∧
    dictGet (pyParseRow ⟨"student", "2020001", "2023-Fall", 7, 0, none⟩) "last_used_time"
      = none ∧
    (∀ r ∈ [] ++ [(⟨"student", "2020001", "2023-Fall", 7, 0, none⟩ : TokenRow)],
      r.token = 7 → r.last_used_time = none) :=
  issue_then_lookup_matches "student" "2023-Fall" "2020001" 7 0 []
    (Or.inl rfl) (by decide) (by decide) (by decide) (by simp)

/-- C3 counterexample: calling the lookup with both a token and a full
(tid, sid, semester) triple does not raise; it performs the token lookup
and returns the absent result on an empty table. -/
theorem find_both_modes_no_error :
    find_calendar_token (some "t1") (some "s1") (some "sem")
      (some "12345678123456781234567812345678".toList) []
      = Except.ok none := by decide

/-- C3 amended: supplying neither addressing mode raises `ValueError`, but
supplying both does not raise: the token takes precedence and the call
behaves exactly like a pure token lookup. -/
theorem find_token_precedence (tid sid semester : Option String) (token : List Char)
    (db : List TokenRow) (ht : token ≠ []) :
    find_calendar_token tid sid semester (some token) db
      = find_calendar_token none none none (some token) db ∧
    find_calendar_token none none none none db = Except.error CallErr.valueError := by
  constructor
  · unfold find_calendar_token
    have h : truthyTok (some token) = true := by simp [truthyTok, ht]
    rw [h, if_pos rfl, if_pos rfl]
  · rfl

/-- Witness for C3 amended at a concrete call. -/
theorem find_token_precedence_witness :
    find_calendar_token (some "t1") (some "s1") (some "sem")
        (some "12345678123456781234567812345678".toList) []
      = find_calendar_token none none none
        (some "12345678123456781234567812345678".toList) [] ∧
    find_calendar_token none none none none ([] : List TokenRow)
      = Except.error CallErr.valueError :=
  find_token_precedence (some "t1") (some "s1") (some "sem")
    "12345678123456781234567812345678".toList [] (by decide)

/-- C4: the stored student row matches the queried (student, 2020001,
2023-Fall) triple, yet the triple lookup returns the absent result, because
the source binds `tid` (None) as the identifier parameter in both modes;
the teacher mode, whose identifier parameter really is `tid`, finds its
row. -/
theorem find_student_triple_returns_none :
    find_calendar_token none (some "2020001") (some "2023-Fall") none
      [⟨"student", "2020001", "2023-Fall", 5, 0, none⟩] = Except.ok none ∧
    (⟨"student", "2020001", "2023-Fall", 5, 0, none⟩ : TokenRow).typ = "student" ∧
    (⟨"student", "2020001", "2023-Fall", 5, 0, none⟩ : TokenRow).identifier = "2020001" ∧
    (⟨"student", "2020001", "2023-Fall", 5, 0, none⟩ : TokenRow).semester = "2023-Fall" ∧
    find_calendar_token (some "1001") none (some "2023-Fall") none
      [⟨"teacher", "1001", "2023-Fall", 6, 0, none⟩]
      = Except.ok (some (pyParseRow ⟨"teacher", "1001", "2023-Fall", 6, 0, none⟩)) :=
  ⟨by decide, rfl, rfl, rfl, by decide⟩

/-- C5: recording a use at time 50 stores `last_used_time = 50` in the row,
and the subsequent lookup by token succeeds, but the dict it returns has no
`last_used_time` entry at all: its keys are exactly type, identifier,
semester and token. -/
theorem record_use_then_lookup_omits_last_used :
    update_last_used_time (uuidToStr 7) 50
        [⟨"student", "2020001", "2023-Fall", 7, 0, none⟩]
      = (Except.ok (), [⟨"student", "2020001", "2023-Fall", 7, 0, some 50⟩]) ∧
    find_calendar_token none none none (some (uuidToStr 7))
        [⟨"student", "2020001", "2023-Fall", 7, 0, some 50⟩]
      = Except.ok (some (pyParseRow ⟨"student", "2020001", "2023-Fall", 7, 0, some 50⟩)) ∧
    (⟨"student", "2020001", "2023-Fall", 7, 0, some 50⟩ : TokenRow).last_used_time
      = some 50 ∧
    dictGet (pyParseRow ⟨"student", "2020001", "2023-Fall", 7, 0, some 50⟩) "last_used_time"
      = none ∧
    (pyParseRow ⟨"student", "2020001", "2023-Fall", 7, 0, some 50⟩).map (fun kv => kv.1)
      = ["type", "identifier", "semester", "token"] :=
  ⟨by decide, by decide, rfl, rfl, rfl⟩

/-- C7 counterexample: recording a use for a token no row matches completes
with a silent success on an empty table; no `NotFound` (nor any other
error) is raised. -/
theorem record_use_missing_token_no_error :
    update_last_used_time (uuidToStr 3) 10 [] = (Except.ok (), []) := by decide

theorem map_update_no_match (v now : Nat) :
    ∀ (db : List TokenRow), (∀ r ∈ db, r.token ≠ v) →
      db.map (fun r =>
        if r.token = v then
          (⟨r.typ, r.identifier, r.semester, r.token, r.create_time, some now⟩ : TokenRow)
        else r) = db := by
  intro db
  induction db with
  | nil => intro _; rfl
  | cons a t ih =>
    intro h
    rw [List.map_cons, if_neg (h a (by simp)),
      ih (fun r hr => h r (List.mem_cons_of_mem a hr))]

/-- C7 amended: recording a use for a well-formed token that matches no
stored row completes silently as a no-op: the call succeeds and the table
is unchanged, so in particular no deleted token is resurrected. -/
theorem record_use_missing_token_noop (token : List Char) (v now : Nat)
    (db : List TokenRow) (hp : pyUUIDparse token = some v)
    (hno : ∀ r ∈ db, r.token ≠ v) :
    update_last_used_time token now db = (Except.ok (), db) := by
  unfold update_last_used_time
  rw [hp]
  show (Except.ok (), db.map (fun r =>
      if r.token = v then
        (⟨r.typ, r.identifier, r.semester, r.token, r.create_time, some now⟩ : TokenRow)
      else r)) = (Except.ok (), db)
  rw [map_update_no_match v now db hno]

/-- Witness for C7 amended: token 3 against a table holding only token 5. -/
theorem record_use_missing_token_noop_witness :
    update_last_used_time "00000000000000000000000000000003".toList 10
        [⟨"student", "x", "s", 5, 0, none⟩]
      = (Except.ok (), [⟨"student", "x", "s", 5, 0, none⟩]) :=
  record_use_missing_token_noop "00000000000000000000000000000003".toList 3 10
    [⟨"student", "x", "s", 5, 0, none⟩] (by decide) (by decide)

/-- C10 counterexample: the empty string is not a well-formed UUID
(`pyUUIDparse` rejects it), yet the token lookup called with it raises the
mode-dispatch `ValueError` — the empty token is falsy, so the `if token:`
branch is skipped — and not an exception from UUID parsing. -/
theorem empty_token_lookup_mode_error :
    pyUUIDparse ([] : List Char) = none ∧
    find_calendar_token none none none (some ([] : List Char))
        [⟨"student", "x", "s", 5, 0, none⟩]
      = Except.error CallErr.valueError ∧
    find_calendar_token none none none (some ([] : List Char))
        [⟨"student", "x", "s", 5, 0, none⟩]
      ≠ Except.error CallErr.uuidParseError := by
  refine ⟨rfl, rfl, by decide⟩

/-- C10 amended: a token string that `uuid.UUID` rejects makes both the
token lookup and the use-recording raise before any statement reaches the
table — the lookup produces no result (absent or otherwise) and the table
after the failed update is unchanged. The exception comes from UUID
parsing in every case but one: a lookup given the empty token string is
falsy in the mode dispatch and raises `ValueError` instead, still before
any store access. -/
theorem malformed_token_fails_before_store (token : List Char) (now : Nat)
    (db : List TokenRow) (hp : pyUUIDparse token = none) :
    (token ≠ [] → find_calendar_token none none none (some token) db
      = Except.error CallErr.uuidParseError) ∧
    (token = [] → find_calendar_token none none none (some token) db
      = Except.error CallErr.valueError) ∧
    update_last_used_time token now db
      = (Except.error CallErr.uuidParseError, db) := by
  refine ⟨?_, ?_, ?_⟩
  · intro hne
    unfold find_calendar_token
    have ht : truthyTok (some token) = true := by simp [truthyTok, hne]
    rw [ht, if_pos rfl, show (some token).getD [] = token from rfl, hp]
  · intro he
    subst he
    rfl
  · unfold update_last_used_time
    rw [hp]

/-- Witness for C10 on the malformed string zzz. -/
theorem malformed_token_fails_before_store_witness :
    ("zzz".toList ≠ [] →
      find_calendar_token none none none (some "zzz".toList)
        [⟨"student", "x", "s", 5, 0, none⟩]
      = Except.error CallErr.uuidParseError) ∧
    ("zzz".toList = [] →
      find_calendar_token none none none (some "zzz".toList)
        [⟨"student", "x", "s", 5, 0, none⟩]
      = Except.error CallErr.valueError) ∧
    update_last_used_time "zzz".toList 10 [⟨"student", "x", "s", 5, 0, none⟩]
      = (Except.error CallErr.uuidParseError, [⟨"student", "x", "s", 5, 0, none⟩]) :=
  malformed_token_fails_before_store "zzz".toList 10
    [⟨"student", "x", "s", 5, 0, none⟩] (by decide)

theorem filter_eq_nil_of_false (p : TokenRow → Bool) :
    ∀ (l : List TokenRow), (∀ r ∈ l, p r = false) → l.filter p = [] := by
  intro l
  induction l with
  | nil => intro _; rfl
  | cons a t ih =>
    intro h
    rw [List.filter_cons, h a (by simp)]
    simp only [Bool.false_eq_true, if_false]
    exact ih (fun r hr => h r (List.mem_cons_of_mem a hr))

/-- C8 counterexample: after revoking, a triple lookup whose semester is
the empty string raises the mode-dispatch `ValueError` instead of
returning the absent result — the empty string is falsy in
`(tid or sid) and semester` — and so does a lookup whose identifier is the
empty string, for any semester. -/
theorem reset_then_lookup_empty_strings_raise :
    find_calendar_token (some "1001") none (some "") none
        (reset_tokens "1001" (some "teacher") [⟨"teacher", "1001", "s1", 1, 0, none⟩])
      = Except.error CallErr.valueError ∧
    find_calendar_token none (some "") (some "s1") none
        (reset_tokens "" (some "student") [⟨"student", "", "s1", 2, 0, none⟩])
      = Except.error CallErr.valueError := by
  refine ⟨rfl, rfl⟩

/-- C8 amended: revoking deletes exactly the rows whose type and identifier
match, whatever their semester; revoking with zero matching rows leaves the
table unchanged and is not an error; the type argument defaults to student;
and afterwards, for a nonempty identifier, the triple lookup returns the
absent result for every nonempty semester, while a lookup with an empty
semester raises the mode-dispatch `ValueError` instead (empty strings are
falsy in the dispatch), still finding nothing. -/
theorem reset_tokens_revokes_all (identifier kind : String) (db : List TokenRow)
    (hk : kind = "student" ∨ kind = "teacher") (hid : identifier ≠ "") :
    (∀ r ∈ reset_tokens identifier (some kind) db,
      ¬(r.typ = kind ∧ r.identifier = identifier)) ∧
    (∀ r ∈ db, ¬(r.typ = kind ∧ r.identifier = identifier) →
      r ∈ reset_tokens identifier (some kind) db) ∧
    ((∀ r ∈ db, ¬(r.typ = kind ∧ r.identifier = identifier)) →
      reset_tokens identifier (some kind) db = db) ∧
    (reset_tokens_default identifier db = reset_tokens identifier (some "student") db) ∧
    (∀ semester : String, semester ≠ "" →
      find_calendar_token (if kind = "teacher" then some identifier else none)
        (if kind = "student" then some identifier else none)
        (some semester) none (reset_tokens identifier (some kind) db)
        = Except.ok none) ∧
    (find_calendar_token (if kind = "teacher" then some identifier else none)
      (if kind = "student" then some identifier else none)
      (some "") none (reset_tokens identifier (some kind) db)
      = Except.error CallErr.valueError) := by
  have hpred : ∀ r : TokenRow,
      ((!(r.identifier == identifier && sqlEqOpt r.typ (some kind))) = true
        ↔ ¬(r.typ = kind ∧ r.identifier = identifier)) := by
    intro r
    simp [sqlEqOpt]
    tauto
  refine ⟨?_, ?_, ?_, rfl, ?_, ?_⟩
  · intro r hr
    obtain ⟨hin, hp⟩ := List.mem_filter.mp hr
    exact (hpred r).mp hp
  · intro r hr h
    exact List.mem_filter.mpr ⟨hr, (hpred r).mpr h⟩
  · intro h
    apply List.filter_eq_self.mpr
    intro r hr
    exact (hpred r).mpr (h r hr)
  · intro semester hsem
    have htid : truthyStr (some identifier) = true := by simp [truthyStr, hid]
    have hts : truthyStr (some semester) = true := by simp [truthyStr, hsem]
    rcases hk with hk | hk <;> subst hk
    · -- student
      show find_calendar_token none (some identifier) (some semester) none
          (reset_tokens identifier (some "student") db) = Except.ok none
      unfold find_calendar_token
      rw [show truthyTok none = false from rfl]
      simp only [Bool.false_eq_true, if_false]
      rw [show truthyStr (none : Option String) = false from rfl, htid, hts]
      simp only [Bool.false_or, Bool.and_self, if_pos rfl]
      rw [filter_eq_nil_of_false _ _ ?_]
      · rfl
      · intro r hr
        simp [sqlEqOpt]
    · -- teacher
      show find_calendar_token (some identifier) none (some semester) none
          (reset_tokens identifier (some "teacher") db) = Except.ok none
      unfold find_calendar_token
      rw [show truthyTok none = false from rfl]
      simp only [Bool.false_eq_true, if_false]
      rw [show truthyStr (none : Option String) = false from rfl, htid, hts]
      simp only [Bool.true_or, Bool.and_self, if_pos rfl]
      rw [filter_eq_nil_of_false _ _ ?_]
      · rfl
      · intro r hr
        obtain ⟨hin, hp⟩ := List.mem_filter.mp hr
        have hno : ¬(r.typ = "teacher" ∧ r.identifier = identifier) := (hpred r).mp hp
        have hor : r.typ ≠ "teacher" ∨ r.identifier ≠ identifier := by tauto
        rcases hor with h | h
        · simp [h]
        · simp [sqlEqOpt, h]
  · rcases hk with hk | hk <;> subst hk
    · show find_calendar_token none (some identifier) (some "") none
          (reset_tokens identifier (some "student") db) = Except.error CallErr.valueError
      unfold find_calendar_token
      rw [show truthyTok none = false from rfl]
      simp only [Bool.false_eq_true, if_false]
      rw [show truthyStr (some "") = false from rfl, Bool.and_false]
      simp only [Bool.false_eq_true, if_false]
    · show find_calendar_token (some identifier) none (some "") none
          (reset_tokens identifier (some "teacher") db) = Except.error CallErr.valueError
      unfold find_calendar_token
      rw [show truthyTok none = false from rfl]
      simp only [Bool.false_eq_true, if_false]
      rw [show truthyStr (some "") = false from rfl, Bool.and_false]
      simp only [Bool.false_eq_true, if_false]

/-- Witness for C8: revoking the teacher tokens of identifier 1001 from a
table holding a teacher row (two semesters) and a student row. -/
theorem reset_tokens_revokes_all_witness :
    (∀ r ∈ reset_tokens "1001" (some "teacher")
        [⟨"teacher", "1001", "s1", 1, 0, none⟩, ⟨"teacher", "1001", "s2", 2, 0, none⟩,
         ⟨"student", "1001", "s1", 3, 0, none⟩],
      ¬(r.typ = "teacher" ∧ r.identifier = "1001")) ∧
    (∀ r ∈ [(⟨"teacher", "1001", "s1", 1, 0, none⟩ : TokenRow),
        ⟨"teacher", "1001", "s2", 2, 0, none⟩, ⟨"student", "1001", "s1", 3, 0, none⟩],
      ¬(r.typ = "teacher" ∧ r.identifier = "1001") →
      r ∈ reset_tokens "1001" (some "teacher")
        [⟨"teacher", "1001", "s1", 1, 0, none⟩, ⟨"teacher", "1001", "s2", 2, 0, none⟩,
         ⟨"student", "1001", "s1", 3, 0, none⟩]) ∧
    ((∀ r ∈ [(⟨"teacher", "1001", "s1", 1, 0, none⟩ : TokenRow),
        ⟨"teacher", "1001", "s2", 2, 0, none⟩, ⟨"student", "1001", "s1", 3, 0, none⟩],
      ¬(r.typ = "teacher" ∧ r.identifier = "1001")) →
      reset_tokens "1001" (some "teacher")
        [⟨"teacher", "1001", "s1", 1, 0, none⟩, ⟨"teacher", "1001", "s2", 2, 0, none⟩,
         ⟨"student", "1001", "s1", 3, 0, none⟩]
        = [⟨"teacher", "1001", "s1", 1, 0, none⟩, ⟨"teacher", "1001", "s2", 2, 0, none⟩,
           ⟨"student", "1001", "s1", 3, 0, none⟩]) ∧
    (reset_tokens_default "1001"
        [⟨"teacher", "1001", "s1", 1, 0, none⟩, ⟨"teacher", "1001", "s2", 2, 0, none⟩,
         ⟨"student", "1001", "s1", 3, 0, none⟩]
      = reset_tokens "1001" (some "student")
        [⟨"teacher", "1001", "s1", 1, 0, none⟩, ⟨"teacher", "1001", "s2", 2, 0, none⟩,
         ⟨"student", "1001", "s1", 3, 0, none⟩]) ∧
    (∀ semester : String, semester ≠ "" →
      find_calendar_token (if ("teacher" : String) = "teacher" then some "1001" else none)
        (if ("teacher" : String) = "student" then some "1001" else none)
        (some semester) none (reset_tokens "1001" (some "teacher")
          [⟨"teacher", "1001", "s1", 1, 0, none⟩, ⟨"teacher", "1001", "s2", 2, 0, none⟩,
           ⟨"student", "1001", "s1", 3, 0, none⟩])
        = Except.ok none) ∧
    (find_calendar_token (if ("teacher" : String) = "teacher" then some "1001" else none)
      (if ("teacher" : String) = "student" then some "1001" else none)
      (some "") none (reset_tokens "1001" (some "teacher")
        [⟨"teacher", "1001", "s1", 1, 0, none⟩, ⟨"teacher", "1001", "s2", 2, 0, none⟩,
         ⟨"student", "1001", "s1", 3, 0, none⟩])
      = Except.error CallErr.valueError) :=
  reset_tokens_revokes_all "1001" "teacher"
    [⟨"teacher", "1001", "s1", 1, 0, none⟩, ⟨"teacher", "1001", "s2", 2, 0, none⟩,
     ⟨"student", "1001", "s1", 3, 0, none⟩] (Or.inr rfl) (by decide)
